import Mathlib

/-!
Verification of the video-subtitle processing pipeline against its
natural-language specification.  The Lean definitions below are shallow
embeddings of the Python source: pure computations are translated directly,
stateful code (the JSON-file database) is explicit state passing over lists of
records, and the external world (ffmpeg, ccextractor, HTTP providers) is an
explicit environment of oracles whose invocations are recorded in a call trace.
-/

namespace VideoSub

/-- A subtitle artifact as produced by `SubtitleExtractor`
(`app/subtitle/extractor.py`): a dict with keys `language`, `source_type`
and `content_path`. -/
structure Sub where
  language : String
  source_type : String
  content_path : String
deriving DecidableEq, Repr

/-! ## SubtitleExtractor.extract_all (`app/subtitle/extractor.py`, lines 177-194)

`extract_all` runs the three local stages.  The stage outputs themselves come
from external processes (ffmpeg probing/extraction, the directory listing,
ccextractor), so they are parameters here; `extract_all` contributes only the
combination logic, translated verbatim:

    results = []
    results.extend(self.extract_embedded(video_path))
    results.extend(self.extract_external(video_path))
    if not results and self.has_ccextractor:
        results.extend(self.extract_closed_captions(video_path))
    return results
-/

def extract_all (embedded external : List Sub) (has_ccextractor : Bool)
    (closed_captions : List Sub) : List Sub :=
  let results := embedded ++ external
  if results.isEmpty && has_ccextractor then results ++ closed_captions
  else results

/-! ## Character-list string helpers

The Python code manipulates strings with `split`, `strip`, `startswith`,
`endswith` and slicing.  These are re-implemented structurally over `List Char`
(`String.data`) so that every definition is kernel-computable. -/

/-- `cs.takeWhile (· ≠ c)`: everything before the first occurrence of `c`;
models `s.split(c)[0]`. -/
def takeUntilChar (c : Char) (cs : List Char) : List Char :=
  cs.takeWhile (fun x => x ≠ c)

/-- Python `s.split(c)` for a one-character separator. -/
def splitOnChar (c : Char) : List Char → List (List Char)
  | [] => [[]]
  | x :: xs =>
    let r := splitOnChar c xs
    if x = c then [] :: r else (x :: r.headD []) :: r.tail

/-- Python `s.strip()` (restricted to the whitespace characters Lean's
`Char.isWhitespace` recognises). -/
def stripChars (cs : List Char) : List Char :=
  ((cs.dropWhile Char.isWhitespace).reverse.dropWhile Char.isWhitespace).reverse

/-- Digit string to number, as Python `int(s)` on an all-digit string. -/
def digitsToNat (cs : List Char) : Nat :=
  cs.foldl (fun n c => n * 10 + (c.toNat - 48)) 0

/-- Python `a % b` for positive `b` (used at 3600 and 60). -/
def pymod (a b : ℚ) : ℚ := a - b * ⌊a / b⌋

/-! `OCRSubtitleExtractor._format_timestamp` (lines 202-209):

    hours = int(seconds / 3600)
    minutes = int((seconds % 3600) / 60)
    seconds = seconds % 60
    milliseconds = int((seconds - int(seconds)) * 1000)
    return f"{hours:02d}:{minutes:02d}:{int(seconds):02d},{milliseconds:03d}"
-/

/-- `f"{n:02d}"` for a natural number. -/
def pad2 (n : Nat) : String :=
  if n < 10 then "0" ++ toString n else toString n

/-- `f"{n:03d}"` for a natural number. -/
def pad3 (n : Nat) : String :=
  if n < 10 then "00" ++ toString n
  else if n < 100 then "0" ++ toString n
  else toString n

def format_timestamp (seconds : ℚ) : String :=
  let hours : Nat := (⌊seconds / 3600⌋).toNat
  let minutes : Nat := (⌊pymod seconds 3600 / 60⌋).toNat
  let secs : ℚ := pymod seconds 60
  let milliseconds : Nat := (⌊(secs - ⌊secs⌋) * 1000⌋).toNat
  pad2 hours ++ ":" ++ pad2 minutes ++ ":" ++ pad2 (⌊secs⌋).toNat ++ ","
    ++ pad3 milliseconds

/-- The cue loop of `create_srt_content` (lines 183-198), running over the
already-filtered sample list; `i` is the running `enumerate` index. -/
def srtEntries : Nat → List (ℚ × String) → String
  | _, [] => ""
  | i, (timestamp, text) :: rest =>
    let end_time : ℚ := match rest with
      | (t2, _) :: _ => t2
      | [] => timestamp + 5
    toString (i + 1) ++ "\n"
      ++ format_timestamp timestamp ++ " --> " ++ format_timestamp end_time
      ++ "\n" ++ text ++ "\n\n"
      ++ srtEntries (i + 1) rest

/-- `OCRSubtitleExtractor.create_srt_content` (lines 168-200): filter out
samples whose stripped text is empty, then emit numbered SRT cues. -/
def create_srt_content (frame_texts : List (ℚ × String)) : String :=
  srtEntries 0 (frame_texts.filter (fun p => !(stripChars p.2.data).isEmpty))

/-- Modelled from the spec's words, for comparison with `create_srt_content`:
each surviving sample `i` (1-based numbering) yields a cue whose start is its
own timestamp and whose end is the next surviving sample's timestamp, or its
own timestamp plus 5.0 seconds for the final cue, both rendered in
`HH:MM:SS,mmm` form. -/
def srtSpecCue (fts : List (ℚ × String)) (i : Nat) : String :=
  let ts : ℚ := (fts.getD i (0, "")).1
  let endT : ℚ := if i + 1 < fts.length then (fts.getD (i + 1) (0, "")).1
                  else ts + 5
  toString (i + 1) ++ "\n"
    ++ format_timestamp ts ++ " --> " ++ format_timestamp endT
    ++ "\n" ++ (fts.getD i (0, "")).2 ++ "\n\n"

/-- Concatenation of a list of strings, in order. -/
def concatAll (ss : List String) : String :=
  ss.foldr (fun a b => a ++ b) ""

def srtSpec (fts : List (ℚ × String)) : String :=
  concatAll ((List.range fts.length).map (srtSpecCue fts))

/-! ## MetadataFetcher.extract_common_metadata (`app/metadata/fetcher.py`, lines 300-403)

The input is the dict of per-provider payloads keyed `"tmdb"` / `"omdb"`; each
payload is modelled as a structure holding exactly the keys the function reads
(plus the runtime keys the providers supply but the merge never reads).  The
result is a Python dict initialised with eight fixed keys and only ever
updated at those keys, so it is modelled as a structure together with a
dict view `commonPairs` in insertion order. -/

/-- Python truthiness of an optional string (`None` and `""` are falsy). -/
def strTruthy : Option String → Bool
  | none => false
  | some s => !s.isEmpty

/-- Python `a or b` on optional strings. -/
def orStr (a b : Option String) : Option String :=
  if strTruthy a then a else b

/-- Python truthiness of an optional float (`None` and `0.0` are falsy). -/
def ratTruthy : Option ℚ → Bool
  | none => false
  | some q => !(q = 0)

/-- Python `float(s)` restricted to the plain decimal forms the providers
emit; `none` models the `ValueError` branch. -/
def parseFloatQ (cs : List Char) : Option ℚ :=
  let body := stripChars cs
  let signed : Bool × List Char := match body with
    | '-' :: rest => (true, rest)
    | '+' :: rest => (false, rest)
    | rest => (false, rest)
  let intPart := signed.2.takeWhile Char.isDigit
  let rest := signed.2.dropWhile Char.isDigit
  let mag : Option ℚ := match rest with
    | [] => if intPart.isEmpty then none else some (digitsToNat intPart)
    | '.' :: frac =>
      if frac.all Char.isDigit && !(intPart.isEmpty && frac.isEmpty) then
        some ((digitsToNat intPart : ℚ)
          + (digitsToNat frac : ℚ) / ((10 : ℚ) ^ frac.length))
      else none
    | _ => none
  mag.map (fun q => if signed.1 then -q else q)

/-- `"credits"` value of a TMDB payload: cast member names in order, and crew
entries as (name, job). -/
structure TmdbCredits where
  cast : List String := []
  crew : List (String × Option String) := []
deriving DecidableEq, Repr

/-- TMDB provider payload: the keys `extract_common_metadata` reads, plus the
`runtime` key TMDB supplies but the merge never reads. -/
structure TmdbData where
  title : Option String := none
  name : Option String := none
  release_date : Option String := none
  first_air_date : Option String := none
  genres : Option (List String) := none
  credits : Option TmdbCredits := none
  overview : Option String := none
  poster_path : Option String := none
  vote_average : Option ℚ := none
  runtime : Option Int := none
deriving DecidableEq, Repr

structure OmdbRating where
  Source : String
  Value : String
deriving DecidableEq, Repr

/-- OMDb provider payload: the keys `extract_common_metadata` reads, plus the
`Runtime` key OMDb supplies (e.g. `"120 min"`) but the merge never reads. -/
structure OmdbData where
  Title : Option String := none
  Year : Option String := none
  Genre : Option String := none
  Actors : Option String := none
  Director : Option String := none
  Plot : Option String := none
  Poster : Option String := none
  Ratings : List OmdbRating := []
  Runtime : Option String := none
deriving DecidableEq, Repr

/-- The metadata dict handed to `extract_common_metadata`, keyed by source. -/
structure MetaInput where
  tmdb : Option TmdbData := none
  omdb : Option OmdbData := none
deriving DecidableEq, Repr

/-- The `common` dict: eight fixed keys, see `commonPairs` for the dict view. -/
structure Common where
  title : Option String
  year : Option String
  genres : List String
  actors : List String
  directors : List String
  plot : Option String
  poster_url : Option String
  rating : Option ℚ
deriving DecidableEq, Repr

/-- Python `[x.strip() for x in s.split(",")]`. -/
def splitCommaStrip (s : String) : List String :=
  (splitOnChar ',' s.data).map (fun g => ⟨stripChars g⟩)

/-- The `if "tmdb" in metadata:` block of `extract_common_metadata`
(lines 321-352). -/
def tmdbFill (t : TmdbData) (common : Common) : Common :=
  let common := { common with title := orStr t.title t.name }
      let release_date := orStr t.release_date t.first_air_date
      let common :=
        if strTruthy release_date && (release_date.getD "").data.length ≥ 4 then
          { common with year := some ⟨(release_date.getD "").data.take 4⟩ }
        else common
      let common := match t.genres with
        | some gs => { common with genres := gs }
        | none => common
      let common := match t.credits with
        | some c =>
          { common with
            actors := c.cast.take 10,
            directors := (c.crew.filter
              (fun (p : String × Option String) => p.2 = some "Director")).map
              (fun (p : String × Option String) => p.1) }
        | none => common
      let common := { common with plot := t.overview }
      let common :=
        if strTruthy t.poster_path then
          { common with
            poster_url := some ("https://image.tmdb.org/t/p/w500"
              ++ t.poster_path.getD "") }
        else common
      { common with rating := t.vote_average }

/-- The `if "omdb" in metadata:` block of `extract_common_metadata`
(lines 354-401): OMDb data is consulted only for fields TMDB left falsy. -/
def omdbTitleStep (o : OmdbData) (common : Common) : Common :=
  if !strTruthy common.title then { common with title := o.Title } else common

def omdbYearStep (o : OmdbData) (common : Common) : Common :=
  if !strTruthy common.year then
    if strTruthy o.Year && (o.Year.getD "").data.contains '–' then
      { common with year := some ⟨takeUntilChar '–' (o.Year.getD "").data⟩ }
    else { common with year := o.Year }
  else common

def omdbGenresStep (o : OmdbData) (common : Common) : Common :=
  if common.genres.isEmpty && strTruthy o.Genre then
    { common with genres := splitCommaStrip (o.Genre.getD "") }
  else common

def omdbActorsStep (o : OmdbData) (common : Common) : Common :=
  if common.actors.isEmpty && strTruthy o.Actors then
    { common with actors := splitCommaStrip (o.Actors.getD "") }
  else common

def omdbDirectorsStep (o : OmdbData) (common : Common) : Common :=
  if common.directors.isEmpty && strTruthy o.Director
      && o.Director ≠ some "N/A" then
    { common with directors := splitCommaStrip (o.Director.getD "") }
  else common

def omdbPlotStep (o : OmdbData) (common : Common) : Common :=
  if !strTruthy common.plot then { common with plot := o.Plot } else common

def omdbPosterStep (o : OmdbData) (common : Common) : Common :=
  if !strTruthy common.poster_url && strTruthy o.Poster
      && o.Poster ≠ some "N/A" then
    { common with poster_url := o.Poster }
  else common

def omdbRatingStep (o : OmdbData) (common : Common) : Common :=
  if !ratTruthy common.rating then
    match o.Ratings.findSome? (fun r =>
        if r.Source = "Internet Movie Database" then
          parseFloatQ (takeUntilChar '/' r.Value.data)
        else none) with
    | some q => { common with rating := some q }
    | none => common
  else common

def omdbFill (o : OmdbData) (common : Common) : Common :=
  omdbRatingStep o (omdbPosterStep o (omdbPlotStep o (omdbDirectorsStep o
    (omdbActorsStep o (omdbGenresStep o (omdbYearStep o
      (omdbTitleStep o common)))))))

/-- `MetadataFetcher.extract_common_metadata` (lines 300-403): initialise the
eight-key dict, then fill from TMDB, then from OMDb. -/
def extract_common_metadata (metadata : MetaInput) : Common :=
  let common : Common :=
    { title := none, year := none, genres := [], actors := [], directors := [],
      plot := none, poster_url := none, rating := none }
  let common := match metadata.tmdb with
    | some t => tmdbFill t common
    | none => common
  match metadata.omdb with
  | some o => omdbFill o common
  | none => common

/-- One value of the returned `common` dict. -/
inductive CVal where
  | str : Option String → CVal
  | list : List String → CVal
  | num : Option ℚ → CVal
deriving DecidableEq, Repr

/-- The dict returned by `extract_common_metadata`, in insertion order: every
key the function ever writes is present in its initialiser, so the key set is
exactly these eight. -/
def commonPairs (c : Common) : List (String × CVal) :=
  [("title", CVal.str c.title), ("year", CVal.str c.year),
   ("genres", CVal.list c.genres), ("actors", CVal.list c.actors),
   ("directors", CVal.list c.directors), ("plot", CVal.str c.plot),
   ("poster_url", CVal.str c.poster_url), ("rating", CVal.num c.rating)]

/-- Python `d.get(k)` on the dict view. -/
def dget (d : List (String × CVal)) (k : String) : Option CVal :=
  (d.find? (fun p => p.1 = k)).map (fun p => p.2)

/-! ## MetadataManager.fetch_metadata (`app/metadata/manager.py`, lines 204-288)

Provider responses arrive over the network, so they are oracles in an
environment `MEnv`; every provider invocation is recorded in a trace of
`MCall`s.  The returned metadata is a Python dict built by `dict.update`,
modelled as an insertion-ordered association list `MDict`. -/

/-- A JSON-ish value stored in the metadata dict. -/
inductive MV where
  | str : String → MV
  | num : Int → MV
  | null : MV
  | strs : List String → MV
  | actorL : List (String × String × Option String) → MV
  | rateL : List OmdbRating → MV
deriving DecidableEq, Repr

abbrev MDict := List (String × MV)

/-- Python dict assignment `d[k] = v`: replace in place, else append. -/
def mdset (d : MDict) (k : String) (v : MV) : MDict :=
  if d.any (fun p => p.1 = k) then
    d.map (fun p => if p.1 = k then (k, v) else p)
  else d ++ [(k, v)]

/-- Python `d.update(kvs)`. -/
def mdupdate (d kvs : MDict) : MDict :=
  kvs.foldl (fun acc kv => mdset acc kv.1 kv.2) d

/-- Python `d.get(k)`. -/
def mdget (d : MDict) (k : String) : Option MV :=
  (d.find? (fun p => p.1 = k)).map (fun p => p.2)

/-- `None`-or-string JSON value. -/
def mvOptStr : Option String → MV
  | some s => MV.str s
  | none => MV.null

/-- `None`-or-number JSON value. -/
def mvOptInt : Option Int → MV
  | some n => MV.num n
  | none => MV.null

/-- TMDB movie-details response: the fields `fetch_metadata` reads. -/
structure TmdbDetails where
  id : Int
  imdb_id : Option String := none
  title : String := ""
  original_title : String := ""
  release_date : String := ""
  runtime : Option Int := none
  overview : String := ""
  poster_path : Option String := none
  genres : List String := []
  cast : List (String × String × Option String) := []
deriving DecidableEq, Repr

/-- OMDb by-IMDb-id response: the fields `fetch_metadata` reads. -/
structure OmdbMgrData where
  Response : String := "True"
  Rated : Option String := none
  Awards : Option String := none
  Ratings : List OmdbRating := []
  BoxOffice : Option String := none
  Production : Option String := none
deriving DecidableEq, Repr

/-- One provider invocation made by `MetadataManager`. -/
inductive MCall where
  | deepseek (name : String) (year : Option Nat)
  | tmdbSearch (name : String) (year : Option Nat)
  | tmdbDetails (id : String)
  | omdbGet (imdb : String)
deriving DecidableEq, Repr

/-- The manager's external collaborators.  `deepseek` models
`_generate_metadata_with_deepseek` (total: it catches all its errors and
returns `None`, i.e. `none`); `tmdb_search` models `get_tmdb_id`;
`tmdb_details` and `omdb_get` model the two direct HTTP requests, `none`
standing for a non-200 response or an exception caught by the
surrounding `try`. -/
structure MEnv where
  deepseek : String → Option Nat → Option MDict
  tmdb_key : Bool
  omdb_key : Bool
  tmdb_search : String → Option Nat → Option String
  tmdb_details : String → Option TmdbDetails
  omdb_get : String → Option OmdbMgrData

/-- The TMDB/OMDB fallback branch of `fetch_metadata` (lines 222-288). -/
def fetchFallback (env : MEnv) (movie_name : String) (year : Option Nat)
    (calls : List MCall) : MDict × List MCall :=
  let metadata : MDict := []
  let (metadata, calls) :=
    if env.tmdb_key then
      let calls := calls ++ [MCall.tmdbSearch movie_name year]
      match env.tmdb_search movie_name year with
      | some tmdb_id =>
        let calls := calls ++ [MCall.tmdbDetails tmdb_id]
        match env.tmdb_details tmdb_id with
        | some data =>
          (mdupdate metadata
            [("tmdb_id", MV.str (toString data.id)),
             ("imdb_id", mvOptStr data.imdb_id),
             ("title", MV.str data.title),
             ("original_title", MV.str data.original_title),
             ("release_date", MV.str data.release_date),
             ("runtime", mvOptInt data.runtime),
             ("overview", MV.str data.overview),
             ("poster_path", mvOptStr (data.poster_path.map
               (fun p => "https://image.tmdb.org/t/p/w500" ++ p))),
             ("genres", MV.strs data.genres),
             ("actors", MV.actorL ((data.cast.take 10).map
               (fun a => (a.1, a.2.1, a.2.2.map
                 (fun p => "https://image.tmdb.org/t/p/w185" ++ p)))))],
           calls)
        | none => (metadata, calls)
      | none => (metadata, calls)
    else (metadata, calls)
  let imdb? : Option String := match mdget metadata "imdb_id" with
    | some (MV.str s) => if s.isEmpty then none else some s
    | _ => none
  match (if env.omdb_key then imdb? else none) with
  | some imdb =>
    let calls := calls ++ [MCall.omdbGet imdb]
    match env.omdb_get imdb with
    | some data =>
      if data.Response = "True" then
        (mdupdate metadata
          [("rated", mvOptStr data.Rated),
           ("awards", mvOptStr data.Awards),
           ("ratings", MV.rateL data.Ratings),
           ("box_office", mvOptStr data.BoxOffice),
           ("production", mvOptStr data.Production)],
         calls)
      else (metadata, calls)
    | none => (metadata, calls)
  | none => (metadata, calls)

/-- `MetadataManager.fetch_metadata` (lines 204-224): try DeepSeek first and
return its dict verbatim when truthy (non-empty); otherwise fall back to
TMDB/OMDB. -/
def fetch_metadata (env : MEnv) (movie_name : String) (year : Option Nat) :
    MDict × List MCall :=
  let calls := [MCall.deepseek movie_name year]
  match env.deepseek movie_name year with
  | some m => if m.isEmpty then fetchFallback env movie_name year calls
              else (m, calls)
  | none => fetchFallback env movie_name year calls

/-! ## DatabaseManager (`app/database/manager.py`)

The JSON-file store `{"videos": [...]}` is modelled as the list of stored
records; each operation is a pure function of that list. -/

/-- One subtitle entry of a processed record (`language`/`content_path`
dicts produced by `SubtitleExtractor.extract` and the web fetch). -/
structure SubItem where
  language : String
  content_path : String
deriving DecidableEq, Repr

/-- The result dict of `SubtitleExtractor.extract` (`app/subtitle.py`). -/
structure SubResult where
  source_type : String
  subtitles : List SubItem
deriving DecidableEq, Repr

/-- A stored video record (`video_info` dict).  Keys a given code path does
not set are modelled by their default values. -/
structure VideoInfo where
  path : String
  name : String := ""
  status : String := ""
  metadata : MDict := []
  subtitle_source : String := ""
  subtitles : List SubItem := []
  error : Option String := none
deriving DecidableEq, Repr

/-- `DatabaseManager.is_video_processed` (lines 36-47). -/
def is_video_processed (db : List VideoInfo) (p : String) : Bool :=
  db.any (fun v => v.path = p)

/-- `DatabaseManager.get_video_info` (lines 49-63): first record with a
matching path. -/
def get_video_info (db : List VideoInfo) (p : String) : Option VideoInfo :=
  db.find? (fun v => v.path = p)

/-- `DatabaseManager.save_video_info` (lines 65-83): replace the first record
with the same path in place, else append. -/
def save_video_info : List VideoInfo → VideoInfo → List VideoInfo
  | [], v => [v]
  | x :: xs, v => if x.path = v.path then v :: xs else x :: save_video_info xs v

/-- `DatabaseManager.delete_video` (lines 85-107): drop every record with the
path; report whether anything was dropped. -/
def delete_video (db : List VideoInfo) (p : String) : List VideoInfo × Bool :=
  let rest := db.filter (fun v => v.path ≠ p)
  (rest, decide (rest.length < db.length))

/-! ## VideoProcessor (`app/processor.py`)

External interactions are an environment of oracles; each oracle invocation
is recorded in the call trace.  `extract` is `Except`-valued: an exception
raised at that step (caught by `process_video`'s blanket `except`) is the
`.error` case.  `_fetch_subtitles_from_web` catches all its own errors and
returns `None` on any failure, so it is `Option`-valued; it reads the
video-info dict built from the path, the movie name and the metadata, which
are passed to the oracle explicitly. -/

inductive Call where
  | metadataFetch (name : String) (year : Option Nat)
  | subtitleExtract (path : String)
  | webFetch (path : String)
deriving DecidableEq, Repr

structure Env where
  parent_dir : String → String
  menv : MEnv
  extract : String → Except String SubResult
  fetch_web : String → String → MDict → Option SubResult

/-- Year extraction from the parent directory name
(`app/processor.py`, lines 237-245): the first `[`-delimited segment that
ends in `]` and whose body is four digits. -/
def parseYear (parent : String) : Option Nat :=
  ((splitOnChar '[' parent.data).drop 1).findSome? (fun part =>
    if part.getLast? = some ']' then
      let ys := part.dropLast
      if ys.length = 4 && ys.all Char.isDigit then some (digitsToNat ys)
      else none
    else none)

/-- `VideoProcessor.process_video` (lines 210-296).  Returns the result
record, the database after the call, and the trace of external calls. -/
def process_video (env : Env) (db : List VideoInfo) (path : String) :
    VideoInfo × List VideoInfo × List Call :=
  if is_video_processed db path then
    ((get_video_info db path).getD { path := path }, db, [])
  else
    let parent := env.parent_dir path
    let movie_name : String := ⟨stripChars (takeUntilChar '[' parent.data)⟩
    let md1 := (fetch_metadata env.menv movie_name none).1
    let calls := [Call.metadataFetch movie_name none]
    let (metadata, calls) :=
      if !md1.isEmpty then (md1, calls)
      else
        match parseYear parent with
        | some y => ((fetch_metadata env.menv movie_name (some y)).1,
                     calls ++ [Call.metadataFetch movie_name (some y)])
        | none => (md1, calls)
    match env.extract path with
    | Except.error e =>
      ({ path := path, status := "error", error := some e }, db,
       calls ++ [Call.subtitleExtract path])
    | Except.ok sres =>
      let calls := calls ++ [Call.subtitleExtract path]
      let (sres, calls) :=
        if sres.source_type = "none" then
          match env.fetch_web path movie_name metadata with
          | some w => (w, calls ++ [Call.webFetch path])
          | none => (sres, calls ++ [Call.webFetch path])
        else (sres, calls)
      let vinfo : VideoInfo :=
        { path := path, name := movie_name, status := "completed",
          metadata := metadata, subtitle_source := sres.source_type,
          subtitles := sres.subtitles }
      (vinfo, save_video_info db vinfo, calls)

/-- `VideoProcessor.batch_process_videos` (lines 298-312): process each path
in order, threading the (file-backed) database. -/
def batch_process_videos (env : Env) (db : List VideoInfo) :
    List String → List VideoInfo × List VideoInfo
  | [] => ([], db)
  | p :: ps =>
    let r := process_video env db p
    let rest := batch_process_videos env r.2.1 ps
    (r.1 :: rest.1, rest.2)

/-- The `process` CLI command (`app/cli.py`, lines 194-208): skip when
already processed and not forced; delete first when forced; then run the
processor.  Returns the database after the command. -/
def cli_process (env : Env) (db : List VideoInfo) (path : String)
    (force : Bool) : List VideoInfo :=
  if !force && is_video_processed db path then db
  else
    let db := if force && is_video_processed db path then
        (delete_video db path).1
      else db
    (process_video env db path).2.1

/-- A store operation, for stating the one-record-per-path invariant over
arbitrary operation sequences. -/
inductive DbOp where
  | save (v : VideoInfo)
  | del (p : String)

def applyOp (db : List VideoInfo) : DbOp → List VideoInfo
  | DbOp.save v => save_video_info db v
  | DbOp.del p => (delete_video db p).1

def applyOps (db : List VideoInfo) (ops : List DbOp) : List VideoInfo :=
  ops.foldl applyOp db

/-- A numbered SRT cue at position `j` of the surviving sample list, carrying
cue number `num + 1`; bridges `srtEntries`'s running counter with the
position-indexed `srtSpec`. -/
def cueAt (fts : List (ℚ × String)) (num j : Nat) : String :=
  let ts : ℚ := (fts.getD j (0, "")).1
  let endT : ℚ := if j + 1 < fts.length then (fts.getD (j + 1) (0, "")).1
                  else ts + 5
  toString (num + 1) ++ "\n"
    ++ format_timestamp ts ++ " --> " ++ format_timestamp endT
    ++ "\n" ++ (fts.getD j (0, "")).2 ++ "\n\n"

/-- An environment whose collaborators all fail; used to instantiate theorems
at concrete inputs. -/
def trivMEnv : MEnv :=
  { deepseek := fun _ _ => none, tmdb_key := false, omdb_key := false,
    tmdb_search := fun _ _ => none, tmdb_details := fun _ => none,
    omdb_get := fun _ => none }

/-- A processor environment whose subtitle extraction raises and whose other
collaborators fail; used to instantiate theorems at concrete inputs. -/
def trivEnv : Env :=
  { parent_dir := fun _ => "Movies [2001]", menv := trivMEnv,
    extract := fun _ => Except.error "ffmpeg not found",
    fetch_web := fun _ _ _ => none }

/-! # Theorems -/

/-- C2, counterexample: with one embedded artifact and one sidecar artifact
available, the final set of `extract_all` contains the sidecar artifact as
well — the cascade does not stop at the embedded stage. -/
theorem c2_counterexample :
    extract_all
        [{ language := "en", source_type := "embedded", content_path := "v_en_2.srt" }]
        [{ language := "fr", source_type := "external", content_path := "v.fr.srt" }]
        false []
      = [{ language := "en", source_type := "embedded", content_path := "v_en_2.srt" },
         { language := "fr", source_type := "external", content_path := "v.fr.srt" }]
    ∧ ({ language := "fr", source_type := "external", content_path := "v.fr.srt" } : Sub).source_type
        ≠ "embedded" := by
  decide

/-- C2, amended: when embedded extraction yields at least one artifact, the
final artifact set of `extract_all` is the concatenation of the embedded and
sidecar artifacts — sidecar artifacts are always included; only the
closed-caption stage is skipped. -/
theorem c2_amended (embedded external closed_captions : List Sub)
    (has_ccextractor : Bool) (h : embedded ≠ []) :
    extract_all embedded external has_ccextractor closed_captions
      = embedded ++ external := by
  unfold extract_all
  cases embedded with
  | nil => exact absurd rfl h
  | cons x xs => simp

/-- C2, witness for `c2_amended` at a concrete input. -/
theorem c2_amended_witness :
    extract_all
        [{ language := "en", source_type := "embedded", content_path := "a.srt" }]
        [{ language := "fr", source_type := "external", content_path := "b.srt" }]
        true []
      = [{ language := "en", source_type := "embedded", content_path := "a.srt" },
         { language := "fr", source_type := "external", content_path := "b.srt" }] :=
  c2_amended _ _ _ _ (by decide)

/-- C3, counterexample: two embedded streams with the same language tag both
survive into the final artifact set — there is no per-language
deduplication. -/
theorem c3_counterexample :
    (extract_all
        [{ language := "en", source_type := "embedded", content_path := "a.srt" },
         { language := "en", source_type := "embedded", content_path := "b.srt" }]
        [] false []).countP (fun a => a.language = "en") = 2 := by
  decide

/-- C3, amended: `extract_all` performs no deduplication: whenever the
embedded and sidecar stages together yield anything, every embedded and every
sidecar artifact is retained, so the number of artifacts carrying a given
language is the sum over the two stages. -/
theorem c3_amended (embedded external closed_captions : List Sub)
    (has_ccextractor : Bool) (l : String) (h : embedded ++ external ≠ []) :
    (extract_all embedded external has_ccextractor closed_captions).countP
        (fun a => a.language = l)
      = embedded.countP (fun a => a.language = l)
        + external.countP (fun a => a.language = l) := by
  unfold extract_all
  have hne : (embedded ++ external).isEmpty = false := by
    cases hc : embedded ++ external with
    | nil => exact absurd hc h
    | cons x xs => rfl
  simp [hne, List.countP_append]

/-- C3, witness for `c3_amended` at a concrete input. -/
theorem c3_amended_witness :
    (extract_all
        [{ language := "en", source_type := "embedded", content_path := "a.srt" }]
        [{ language := "en", source_type := "external", content_path := "b.srt" }]
        false []).countP (fun a => a.language = "en") = 1 + 1 :=
  c3_amended _ _ _ _ _ (by decide)

/-- C10: whenever DeepSeek returns a (truthy, i.e. non-empty) metadata dict,
`MetadataManager.fetch_metadata` returns that dict verbatim and its only
provider call is the DeepSeek one — TMDB and OMDB are never queried and
contribute nothing. -/
theorem c10_generative_first (env : MEnv) (movie_name : String)
    (year : Option Nat) (m : MDict)
    (h1 : env.deepseek movie_name year = some m) (h2 : m ≠ []) :
    fetch_metadata env movie_name year = (m, [MCall.deepseek movie_name year]) := by
  unfold fetch_metadata
  rw [h1]
  cases m with
  | nil => exact absurd rfl h2
  | cons x xs => rfl

/-- C10, witness for `c10_generative_first` at a concrete environment. -/
theorem c10_generative_first_witness :
    fetch_metadata
        { trivMEnv with
          deepseek := fun _ _ => some [("title", MV.str "Totoro")],
          tmdb_key := true, omdb_key := true }
        "Totoro" (some 1988)
      = ([("title", MV.str "Totoro")], [MCall.deepseek "Totoro" (some 1988)]) :=
  c10_generative_first _ _ _ _ rfl (by decide)

/-- C1: if a path is already recorded as processed, `process_video` returns
the stored record unchanged, leaves the database unchanged, and makes no
external call at all (no extraction, no metadata fetch, no web fetch). -/
theorem c1_idempotent_skip (env : Env) (db : List VideoInfo) (path : String)
    (h : is_video_processed db path = true) :
    ∃ r, get_video_info db path = some r
      ∧ process_video env db path = (r, db, []) := by
  obtain ⟨v, hv, hpv⟩ := List.any_eq_true.mp h
  have hsome : (get_video_info db path).isSome := by
    unfold get_video_info
    exact List.find?_isSome.mpr ⟨v, hv, hpv⟩
  obtain ⟨r, hr⟩ := Option.isSome_iff_exists.mp hsome
  refine ⟨r, hr, ?_⟩
  unfold process_video
  rw [if_pos h, hr]
  rfl

/-- C1, witness for `c1_idempotent_skip` at a concrete database. -/
theorem c1_idempotent_skip_witness :
    ∃ r, get_video_info
        [{ path := "/m/a.mkv", name := "A", status := "completed" }] "/m/a.mkv"
        = some r
      ∧ process_video trivEnv
          [{ path := "/m/a.mkv", name := "A", status := "completed" }] "/m/a.mkv"
        = (r, [{ path := "/m/a.mkv", name := "A", status := "completed" }], []) :=
  c1_idempotent_skip trivEnv _ _ (by decide)

/-- Every branch of `process_video` produces a result carrying the input
path: the stored record on the idempotent path, the error record on the
exception path, and the composed record on the success path. -/
theorem process_video_path_eq (env : Env) (db : List VideoInfo) (path : String) :
    (process_video env db path).1.path = path := by
  unfold process_video
  by_cases h : is_video_processed db path = true
  · rw [if_pos h]
    cases hr : get_video_info db path with
    | none => simp [hr]
    | some r =>
      have := List.find?_some hr
      simp [hr]
      exact of_decide_eq_true this
  · rw [if_neg h]
    cases hex : env.extract path <;> simp [hex]

/-- C6: `batch_process_videos` returns exactly one result per input path, in
input order — the i-th result is for the i-th path — regardless of how many
items fail (failures being error records, not exceptions). -/
theorem c6_batch_one_result_per_path (env : Env) (db : List VideoInfo)
    (paths : List String) :
    (batch_process_videos env db paths).1.length = paths.length
    ∧ ∀ i, i < paths.length →
        ((batch_process_videos env db paths).1.getD i { path := "" }).path
          = paths.getD i "" := by
  induction paths generalizing db with
  | nil => exact ⟨rfl, fun i hi => absurd hi (Nat.not_lt_zero i)⟩
  | cons p ps ih =>
    refine ⟨?_, ?_⟩
    · simpa [batch_process_videos] using (ih _).1
    · intro i hi
      cases i with
      | zero => simpa [batch_process_videos] using process_video_path_eq env db p
      | succ n =>
        have := (ih (process_video env db p).2.1).2 n (Nat.lt_of_succ_lt_succ hi)
        simpa [batch_process_videos] using this

/-- C6, witness for `c6_batch_one_result_per_path` at a concrete batch whose
first item fails (the extraction oracle raises): the second item is still
processed and keeps its position. -/
theorem c6_batch_one_result_per_path_witness :
    ((batch_process_videos trivEnv [] ["/m/a.mkv", "/m/b.mkv"]).1.getD 1
        { path := "" }).path = "/m/b.mkv" :=
  (c6_batch_one_result_per_path trivEnv [] ["/m/a.mkv", "/m/b.mkv"]).2 1 (by decide)

/-- Saving a record whose path is already present replaces it in place: the
stored path list is unchanged. -/
theorem save_paths_of_processed (db : List VideoInfo) (v : VideoInfo)
    (h : is_video_processed db v.path = true) :
    (save_video_info db v).map (fun r => r.path) = db.map (fun r => r.path) := by
  induction db with
  | nil => simp [is_video_processed] at h
  | cons x xs ih =>
    by_cases hx : x.path = v.path
    · simp [save_video_info, hx]
    · have h' : is_video_processed xs v.path = true := by
        simp [is_video_processed] at h ⊢
        rcases h with h | h
        · exact absurd h hx
        · exact h
      simp [save_video_info, hx, ih h']

/-- Saving a record with a new path appends it. -/
theorem save_paths_of_new (db : List VideoInfo) (v : VideoInfo)
    (h : is_video_processed db v.path = false) :
    (save_video_info db v).map (fun r => r.path)
      = db.map (fun r => r.path) ++ [v.path] := by
  induction db with
  | nil => simp [save_video_info]
  | cons x xs ih =>
    simp [is_video_processed] at h
    have hxs : is_video_processed xs v.path = false := by
      simp [is_video_processed]
      exact h.2
    simp [save_video_info, h.1, ih hxs]

theorem save_video_info_paths_nodup (db : List VideoInfo) (v : VideoInfo)
    (h : (db.map (fun r => r.path)).Nodup) :
    ((save_video_info db v).map (fun r => r.path)).Nodup := by
  cases hp : is_video_processed db v.path with
  | true => rw [save_paths_of_processed db v hp]; exact h
  | false =>
    rw [save_paths_of_new db v hp]
    have hnot : v.path ∉ db.map (fun r => r.path) := by
      intro hmem
      rcases List.mem_map.mp hmem with ⟨r, hr, hrp⟩
      have : is_video_processed db v.path = true :=
        List.any_eq_true.mpr ⟨r, hr, by simp [hrp]⟩
      simp [this] at hp
    simpa using List.Nodup.append h (List.nodup_singleton v.path)
      (by simpa using hnot)

theorem delete_video_paths_nodup (db : List VideoInfo) (p : String)
    (h : (db.map (fun r => r.path)).Nodup) :
    (((delete_video db p).1).map (fun r => r.path)).Nodup := by
  exact List.Nodup.sublist (List.Sublist.map _ (List.filter_sublist db)) h

/-- `process_video` preserves the one-record-per-path invariant of the
store. -/
theorem process_video_paths_nodup (env : Env) (db : List VideoInfo)
    (path : String) (h : (db.map (fun r => r.path)).Nodup) :
    ((process_video env db path).2.1.map (fun r => r.path)).Nodup := by
  unfold process_video
  by_cases hp : is_video_processed db path = true
  · rw [if_pos hp]; exact h
  · rw [if_neg hp]
    cases hex : env.extract path with
    | error e => simpa [hex] using h
    | ok sres =>
      simp only [hex]
      refine ?_
      split
      · split <;> exact save_video_info_paths_nodup _ _ h
      · exact save_video_info_paths_nodup _ _ h

/-- C9: the store keeps at most one record per path.  Starting from a store
with pairwise-distinct paths, (a) any sequence of save/delete operations
preserves distinctness, (b) saving a record whose path is present replaces it
in place (the stored path list is unchanged — no second record appears), and
(c) the forced-reprocess CLI flow (delete first, then process and save anew)
preserves distinctness. -/
theorem c9_one_record_per_path (db : List VideoInfo) (ops : List DbOp)
    (v : VideoInfo) (env : Env) (path : String) (force : Bool)
    (h : (db.map (fun r => r.path)).Nodup) :
    ((applyOps db ops).map (fun r => r.path)).Nodup
    ∧ (is_video_processed db v.path = true →
        (save_video_info db v).map (fun r => r.path)
          = db.map (fun r => r.path))
    ∧ ((cli_process env db path force).map (fun r => r.path)).Nodup := by
  refine ⟨?_, save_paths_of_processed db v, ?_⟩
  · induction ops generalizing db with
    | nil => exact h
    | cons op ops ih =>
      refine ih (applyOp db op) ?_
      cases op with
      | save w => exact save_video_info_paths_nodup db w h
      | del p => exact delete_video_paths_nodup db p h
  · unfold cli_process
    split
    · exact h
    · split
      · exact process_video_paths_nodup env _ path
          (delete_video_paths_nodup db path h)
      · exact process_video_paths_nodup env db path h

/-- C9, witness for `c9_one_record_per_path`: a concrete store, operation
sequence and forced CLI reprocess. -/
theorem c9_one_record_per_path_witness :
    ((applyOps [{ path := "/m/a.mkv" }, { path := "/m/b.mkv" }]
        [DbOp.save { path := "/m/a.mkv", name := "A2" }, DbOp.del "/m/b.mkv",
         DbOp.save { path := "/m/c.mkv" }]).map (fun r => r.path)).Nodup
    ∧ ((cli_process trivEnv [{ path := "/m/a.mkv" }, { path := "/m/b.mkv" }]
        "/m/a.mkv" true).map (fun r => r.path)).Nodup := by
  have h := c9_one_record_per_path
    [{ path := "/m/a.mkv" }, { path := "/m/b.mkv" }]
    [DbOp.save { path := "/m/a.mkv", name := "A2" }, DbOp.del "/m/b.mkv",
     DbOp.save { path := "/m/c.mkv" }]
    { path := "/m/a.mkv" } trivEnv "/m/a.mkv" true (by decide)
  exact ⟨h.1, h.2.2⟩

theorem cueAt_cons_succ (x : ℚ × String) (xs : List (ℚ × String)) (k j : Nat) :
    cueAt (x :: xs) (k + (j + 1)) (j + 1) = cueAt xs (k + 1 + j) j := by
  have hk : k + (j + 1) = k + 1 + j := by omega
  simp [cueAt, hk, List.getD_cons_succ]

theorem srtEntries_cons (k : Nat) (x : ℚ × String) (xs : List (ℚ × String)) :
    srtEntries k (x :: xs) = cueAt (x :: xs) k 0 ++ srtEntries (k + 1) xs := by
  obtain ⟨ts, tx⟩ := x
  cases xs with
  | nil => simp [srtEntries, cueAt]
  | cons y ys =>
    obtain ⟨t2, tx2⟩ := y
    simp [srtEntries, cueAt]

theorem srtEntries_eq_spec (xs : List (ℚ × String)) : ∀ k : Nat,
    srtEntries k xs = concatAll ((List.range xs.length).map
      (fun j => cueAt xs (k + j) j)) := by
  induction xs with
  | nil => intro k; simp [srtEntries, concatAll]
  | cons x xs ih =>
    intro k
    rw [srtEntries_cons, ih (k + 1), List.length_cons,
      List.range_succ_eq_map, List.map_cons, List.map_map]
    show cueAt (x :: xs) k 0 ++ _
      = cueAt (x :: xs) (k + 0) 0 ++ concatAll _
    rw [Nat.add_zero]
    congr 2
    apply List.map_congr_left
    intro j _
    show cueAt xs (k + 1 + j) j = cueAt (x :: xs) (k + (j + 1)) (j + 1)
    exact (cueAt_cons_succ x xs k j).symm

/-- C7: OCR cue synthesis.  (a) For every sample list, `create_srt_content`
produces exactly the cue sequence described by the spec (`srtSpec`): each
surviving sample becomes a numbered cue starting at its own timestamp, ending
at the next surviving sample's timestamp, or 5.0 seconds later for the final
cue.  (b) 61.5 seconds renders as `00:01:01,500`.  (c) A final sample at 90.0
seconds gets end time 90 + 5 seconds, rendered `00:01:35,000`. -/
theorem c7_cue_synthesis :
    (∀ frame_texts : List (ℚ × String),
        create_srt_content frame_texts
          = srtSpec (frame_texts.filter (fun p => !(stripChars p.2.data).isEmpty)))
    ∧ format_timestamp (123 / 2 : ℚ) = "00:01:01,500"
    ∧ format_timestamp (90 + 5 : ℚ) = "00:01:35,000" := by
  refine ⟨?_, ?_, ?_⟩
  case refine_2 =>
    have h2 : ⌊(123 / 2 : ℚ) / 60⌋ = 1 := by norm_num [Int.floor_eq_iff]
    simp only [format_timestamp, pymod, h2]
    norm_num
    rfl
  case refine_3 =>
    have h2 : ⌊(90 + 5 : ℚ) / 60⌋ = 1 := by norm_num [Int.floor_eq_iff]
    simp only [format_timestamp, pymod, h2]
    norm_num
    rfl
  intro l
  unfold create_srt_content srtSpec
  rw [srtEntries_eq_spec]
  congr 1
  apply List.map_congr_left
  intro j _
  simp [srtSpecCue, cueAt]

theorem tmdbFill_title (t : TmdbData) (c : Common) :
    (tmdbFill t c).title = orStr t.title t.name := by
  simp only [tmdbFill]
  repeat' split
  all_goals rfl

theorem tmdbFill_genres_some (t : TmdbData) (c : Common) (gs : List String)
    (hg : t.genres = some gs) : (tmdbFill t c).genres = gs := by
  simp only [tmdbFill, hg]
  repeat' split
  all_goals rfl

theorem tmdbFill_genres_none (t : TmdbData) (c : Common)
    (hg : t.genres = none) : (tmdbFill t c).genres = c.genres := by
  simp only [tmdbFill, hg]
  repeat' split
  all_goals rfl

theorem tmdbFill_actors_some (t : TmdbData) (c : Common) (cr : TmdbCredits)
    (hc : t.credits = some cr) : (tmdbFill t c).actors = cr.cast.take 10 := by
  simp only [tmdbFill, hc]
  repeat' split
  all_goals rfl

theorem omdbTitleStep_genres (o : OmdbData) (c : Common) :
    (omdbTitleStep o c).genres = c.genres := by
  unfold omdbTitleStep
  repeat' split
  all_goals rfl

theorem omdbTitleStep_actors (o : OmdbData) (c : Common) :
    (omdbTitleStep o c).actors = c.actors := by
  unfold omdbTitleStep
  repeat' split
  all_goals rfl

theorem omdbYearStep_title (o : OmdbData) (c : Common) :
    (omdbYearStep o c).title = c.title := by
  unfold omdbYearStep
  repeat' split
  all_goals rfl

theorem omdbYearStep_genres (o : OmdbData) (c : Common) :
    (omdbYearStep o c).genres = c.genres := by
  unfold omdbYearStep
  repeat' split
  all_goals rfl

theorem omdbYearStep_actors (o : OmdbData) (c : Common) :
    (omdbYearStep o c).actors = c.actors := by
  unfold omdbYearStep
  repeat' split
  all_goals rfl

theorem omdbGenresStep_title (o : OmdbData) (c : Common) :
    (omdbGenresStep o c).title = c.title := by
  unfold omdbGenresStep
  repeat' split
  all_goals rfl

theorem omdbGenresStep_actors (o : OmdbData) (c : Common) :
    (omdbGenresStep o c).actors = c.actors := by
  unfold omdbGenresStep
  repeat' split
  all_goals rfl

theorem omdbActorsStep_title (o : OmdbData) (c : Common) :
    (omdbActorsStep o c).title = c.title := by
  unfold omdbActorsStep
  repeat' split
  all_goals rfl

theorem omdbActorsStep_genres (o : OmdbData) (c : Common) :
    (omdbActorsStep o c).genres = c.genres := by
  unfold omdbActorsStep
  repeat' split
  all_goals rfl

theorem omdbDirectorsStep_title (o : OmdbData) (c : Common) :
    (omdbDirectorsStep o c).title = c.title := by
  unfold omdbDirectorsStep
  repeat' split
  all_goals rfl

theorem omdbDirectorsStep_genres (o : OmdbData) (c : Common) :
    (omdbDirectorsStep o c).genres = c.genres := by
  unfold omdbDirectorsStep
  repeat' split
  all_goals rfl

theorem omdbDirectorsStep_actors (o : OmdbData) (c : Common) :
    (omdbDirectorsStep o c).actors = c.actors := by
  unfold omdbDirectorsStep
  repeat' split
  all_goals rfl

theorem omdbPlotStep_title (o : OmdbData) (c : Common) :
    (omdbPlotStep o c).title = c.title := by
  unfold omdbPlotStep
  repeat' split
  all_goals rfl

theorem omdbPlotStep_genres (o : OmdbData) (c : Common) :
    (omdbPlotStep o c).genres = c.genres := by
  unfold omdbPlotStep
  repeat' split
  all_goals rfl

theorem omdbPlotStep_actors (o : OmdbData) (c : Common) :
    (omdbPlotStep o c).actors = c.actors := by
  unfold omdbPlotStep
  repeat' split
  all_goals rfl

theorem omdbPosterStep_title (o : OmdbData) (c : Common) :
    (omdbPosterStep o c).title = c.title := by
  unfold omdbPosterStep
  repeat' split
  all_goals rfl

theorem omdbPosterStep_genres (o : OmdbData) (c : Common) :
    (omdbPosterStep o c).genres = c.genres := by
  unfold omdbPosterStep
  repeat' split
  all_goals rfl

theorem omdbPosterStep_actors (o : OmdbData) (c : Common) :
    (omdbPosterStep o c).actors = c.actors := by
  unfold omdbPosterStep
  repeat' split
  all_goals rfl

theorem omdbRatingStep_title (o : OmdbData) (c : Common) :
    (omdbRatingStep o c).title = c.title := by
  unfold omdbRatingStep
  repeat' split
  all_goals rfl

theorem omdbRatingStep_genres (o : OmdbData) (c : Common) :
    (omdbRatingStep o c).genres = c.genres := by
  unfold omdbRatingStep
  repeat' split
  all_goals rfl

theorem omdbRatingStep_actors (o : OmdbData) (c : Common) :
    (omdbRatingStep o c).actors = c.actors := by
  unfold omdbRatingStep
  repeat' split
  all_goals rfl

theorem omdbTitleStep_of_truthy (o : OmdbData) (c : Common)
    (h : strTruthy c.title = true) : (omdbTitleStep o c).title = c.title := by
  simp [omdbTitleStep, h]

theorem omdbTitleStep_of_falsy (o : OmdbData) (c : Common)
    (h : strTruthy c.title = false) : (omdbTitleStep o c).title = o.Title := by
  simp [omdbTitleStep, h]

theorem omdbGenresStep_of_nonempty (o : OmdbData) (c : Common)
    (h : c.genres ≠ []) : (omdbGenresStep o c).genres = c.genres := by
  have hb : c.genres.isEmpty = false := by
    cases hg : c.genres with
    | nil => exact absurd hg h
    | cons x xs => rfl
  simp [omdbGenresStep, hb]

theorem omdbGenresStep_of_empty (o : OmdbData) (c : Common)
    (h : c.genres = []) (hg : strTruthy o.Genre = true) :
    (omdbGenresStep o c).genres = splitCommaStrip (o.Genre.getD "") := by
  simp [omdbGenresStep, h, hg]

theorem omdbActorsStep_of_nonempty (o : OmdbData) (c : Common)
    (h : c.actors ≠ []) : (omdbActorsStep o c).actors = c.actors := by
  have hb : c.actors.isEmpty = false := by
    cases ha : c.actors with
    | nil => exact absurd ha h
    | cons x xs => rfl
  simp [omdbActorsStep, hb]

theorem omdbFill_title_of_truthy (o : OmdbData) (c : Common)
    (h : strTruthy c.title = true) : (omdbFill o c).title = c.title := by
  simp only [omdbFill, omdbRatingStep_title, omdbPosterStep_title,
    omdbPlotStep_title, omdbDirectorsStep_title, omdbActorsStep_title,
    omdbGenresStep_title, omdbYearStep_title]
  exact omdbTitleStep_of_truthy o c h

theorem omdbFill_title_of_falsy (o : OmdbData) (c : Common)
    (h : strTruthy c.title = false) : (omdbFill o c).title = o.Title := by
  simp only [omdbFill, omdbRatingStep_title, omdbPosterStep_title,
    omdbPlotStep_title, omdbDirectorsStep_title, omdbActorsStep_title,
    omdbGenresStep_title, omdbYearStep_title]
  exact omdbTitleStep_of_falsy o c h

theorem omdbFill_genres_of_nonempty (o : OmdbData) (c : Common)
    (h : c.genres ≠ []) : (omdbFill o c).genres = c.genres := by
  simp only [omdbFill, omdbRatingStep_genres, omdbPosterStep_genres,
    omdbPlotStep_genres, omdbDirectorsStep_genres, omdbActorsStep_genres]
  rw [omdbGenresStep_of_nonempty o _
    (by rw [omdbYearStep_genres, omdbTitleStep_genres]; exact h)]
  rw [omdbYearStep_genres, omdbTitleStep_genres]

theorem omdbFill_genres_of_empty (o : OmdbData) (c : Common)
    (h : c.genres = []) (hg : strTruthy o.Genre = true) :
    (omdbFill o c).genres = splitCommaStrip (o.Genre.getD "") := by
  simp only [omdbFill, omdbRatingStep_genres, omdbPosterStep_genres,
    omdbPlotStep_genres, omdbDirectorsStep_genres, omdbActorsStep_genres]
  exact omdbGenresStep_of_empty o _
    (by rw [omdbYearStep_genres, omdbTitleStep_genres]; exact h) hg

theorem omdbFill_actors_of_nonempty (o : OmdbData) (c : Common)
    (h : c.actors ≠ []) : (omdbFill o c).actors = c.actors := by
  simp only [omdbFill, omdbRatingStep_actors, omdbPosterStep_actors,
    omdbPlotStep_actors, omdbDirectorsStep_actors]
  rw [omdbActorsStep_of_nonempty o _
    (by rw [omdbGenresStep_actors, omdbYearStep_actors, omdbTitleStep_actors]
        exact h)]
  rw [omdbGenresStep_actors, omdbYearStep_actors, omdbTitleStep_actors]

/-- C4, counterexample: with the higher-precedence provider supplying title
`"X"` and no runtime, and the lower-precedence provider supplying runtime
`"120 min"` and no title, the merged record has title `"X"` but NO runtime at
all — `extract_common_metadata` never merges a runtime field, so the merged
runtime is not 120. -/
theorem c4_counterexample :
    dget (commonPairs (extract_common_metadata
        { tmdb := some { title := some "X" },
          omdb := some { Runtime := some "120 min" } })) "title"
      = some (CVal.str (some "X"))
    ∧ dget (commonPairs (extract_common_metadata
        { tmdb := some { title := some "X" },
          omdb := some { Runtime := some "120 min" } })) "runtime"
      = none := by
  decide

/-- C4, amended: the merged record holds exactly the eight fields `title`,
`year`, `genres`, `actors`, `directors`, `plot`, `poster_url`, `rating`;
runtime is never merged, so the lower provider's runtime is dropped.  For the
fields that are merged the stated policy holds for `title`: a title populated
by the higher-precedence provider (TMDB) is never overwritten by OMDb, and a
still-empty title is filled from OMDb. -/
theorem c4_amended (t : TmdbData) (o : OmdbData) :
    (commonPairs (extract_common_metadata
        { tmdb := some t, omdb := some o })).map (fun p => p.1)
      = ["title", "year", "genres", "actors", "directors", "plot",
         "poster_url", "rating"]
    ∧ dget (commonPairs (extract_common_metadata
        { tmdb := some t, omdb := some o })) "runtime" = none
    ∧ (strTruthy (orStr t.title t.name) = true →
        (extract_common_metadata { tmdb := some t, omdb := some o }).title
          = orStr t.title t.name)
    ∧ (strTruthy (orStr t.title t.name) = false →
        (extract_common_metadata { tmdb := some t, omdb := some o }).title
          = o.Title) := by
  refine ⟨rfl, rfl, ?_, ?_⟩
  · intro h
    show (omdbFill o (tmdbFill t _)).title = orStr t.title t.name
    rw [omdbFill_title_of_truthy o _ (by rw [tmdbFill_title]; exact h),
      tmdbFill_title]
  · intro h
    show (omdbFill o (tmdbFill t _)).title = o.Title
    exact omdbFill_title_of_falsy o _ (by rw [tmdbFill_title]; exact h)

/-- C4, witness for `c4_amended` at the claim's concrete scenario. -/
theorem c4_amended_witness :
    dget (commonPairs (extract_common_metadata
        { tmdb := some { title := some "X" },
          omdb := some { Runtime := some "120 min", Title := some "Y" } }))
        "runtime" = none
    ∧ (extract_common_metadata
        { tmdb := some { title := some "X" },
          omdb := some { Runtime := some "120 min", Title := some "Y" } }).title
      = some "X" :=
  ⟨(c4_amended { title := some "X" }
      { Runtime := some "120 min", Title := some "Y" }).2.1,
   (c4_amended { title := some "X" }
      { Runtime := some "120 min", Title := some "Y" }).2.2.1 (by decide)⟩

/-- C5, counterexample: TMDB supplies genre `"Drama"` and OMDb supplies
`"drama, Comedy"`; the merged genre list is just `["Drama"]` — not the
case-insensitive union, which would also contain `"Comedy"`. -/
theorem c5_counterexample :
    (extract_common_metadata
        { tmdb := some { genres := some ["Drama"] },
          omdb := some { Genre := some "drama, Comedy" } }).genres
      = ["Drama"]
    ∧ ¬ ("Comedy" ∈ (extract_common_metadata
        { tmdb := some { genres := some ["Drama"] },
          omdb := some { Genre := some "drama, Comedy" } }).genres) := by
  decide

/-- C5, amended: list-valued fields are not unioned across providers.  When
TMDB supplies a non-empty genre list (resp. a credits object with a non-empty
cast) the merged list is exactly TMDB's, ignoring OMDb entirely; OMDb's
comma-split, whitespace-stripped values are used only when the TMDB-filled
list is empty. -/
theorem c5_amended (t : TmdbData) (o : OmdbData) (gs : List String)
    (cr : TmdbCredits) :
    (t.genres = some gs → gs ≠ [] →
      (extract_common_metadata { tmdb := some t, omdb := some o }).genres = gs)
    ∧ (t.credits = some cr → cr.cast.take 10 ≠ [] →
      (extract_common_metadata { tmdb := some t, omdb := some o }).actors
        = cr.cast.take 10)
    ∧ (t.genres = none → strTruthy o.Genre = true →
      (extract_common_metadata { tmdb := some t, omdb := some o }).genres
        = splitCommaStrip (o.Genre.getD "")) := by
  refine ⟨?_, ?_, ?_⟩
  · intro hg hne
    show (omdbFill o (tmdbFill t _)).genres = gs
    rw [omdbFill_genres_of_nonempty o _
      (by rw [tmdbFill_genres_some t _ gs hg]; exact hne)]
    exact tmdbFill_genres_some t _ gs hg
  · intro hc hne
    show (omdbFill o (tmdbFill t _)).actors = cr.cast.take 10
    rw [omdbFill_actors_of_nonempty o _
      (by rw [tmdbFill_actors_some t _ cr hc]; exact hne)]
    exact tmdbFill_actors_some t _ cr hc
  · intro hg ho
    show (omdbFill o (tmdbFill t _)).genres = splitCommaStrip (o.Genre.getD "")
    exact omdbFill_genres_of_empty o _
      (by rw [tmdbFill_genres_none t _ hg]) ho

/-- C5, witness for `c5_amended`: TMDB genres `["Drama"]` and cast
`["Alice"]` win outright over OMDb's `"drama, Comedy"` and `"alice, Bob"`. -/
theorem c5_amended_witness :
    (extract_common_metadata
        { tmdb := some { genres := some ["Drama"],
                         credits := some { cast := ["Alice"] } },
          omdb := some { Genre := some "drama, Comedy",
                         Actors := some "alice, Bob" } }).genres = ["Drama"]
    ∧ (extract_common_metadata
        { tmdb := some { genres := some ["Drama"],
                         credits := some { cast := ["Alice"] } },
          omdb := some { Genre := some "drama, Comedy",
                         Actors := some "alice, Bob" } }).actors
      = List.take 10 ["Alice"] :=
  ⟨(c5_amended { genres := some ["Drama"], credits := some { cast := ["Alice"] } }
      { Genre := some "drama, Comedy", Actors := some "alice, Bob" }
      ["Drama"] { cast := ["Alice"] }).1 rfl (by decide),
   (c5_amended { genres := some ["Drama"], credits := some { cast := ["Alice"] } }
      { Genre := some "drama, Comedy", Actors := some "alice, Bob" }
      ["Drama"] { cast := ["Alice"] }).2.1 rfl (by decide)⟩

end VideoSub
